import Mathlib

/-!
Verification of the script/MP3 lifecycle logic of the AI Live Commerce
dashboard client (`frontend/static/js/dashboard.js`).

The dashboard is single-threaded, event-driven JavaScript.  We embed each
relevant handler as a pure Lean function: the ambient backend is passed in
as an explicit response (or response stream for polling loops), the global
`currentScripts` cache is passed and returned explicitly, and the
observable effects of a run (HTTP requests issued, alerts shown, timers
scheduled, DOM regions rendered) are collected in a trace structure that
the function returns.
-/

/-- Outcome of one `fetch` call as the dashboard code distinguishes them:
`ok body` is `response.ok` with a parsed JSON body, `httpError` is a
completed response with `!response.ok`, and `networkError` is a rejected
`fetch` promise (which lands in the surrounding `catch`). -/
inductive FetchOutcome (α : Type) where
  | ok (body : α)
  | httpError
  | networkError
deriving DecidableEq, Repr

/-- An HTTP request issued by the client, with its URL. -/
inductive Request where
  | get (url : String)
  | put (url : String)
  | post (url : String)
  | delete (url : String)
deriving DecidableEq, Repr

/-- A JSON field that the code expects to be an array.  `missing` covers an
absent / `null` / otherwise falsy value (which `x || []` replaces by `[]`);
`array xs` is a genuine array; `nonArray` is a truthy value that is not an
array (a malformed or error-shaped payload). -/
inductive JsField (α : Type) where
  | missing
  | array (xs : List α)
  | nonArray
deriving DecidableEq, Repr

/-- A product as mirrored in `currentProducts`: only the fields the script
loader reads (`id`, `name`, `sku`). -/
structure Product where
  id : Nat
  name : String
  sku : String
deriving DecidableEq, Repr

/-- A script object as held in the `currentScripts` cache.  `has_mp3` and
`can_edit` are the boolean lock flags; `product_name` / `product_sku` are
the tags the ALL-products loader attaches (`none` when untagged). -/
structure Script where
  id : Nat
  product_id : Nat
  title : String
  has_mp3 : Bool
  can_edit : Bool
  product_name : Option String
  product_sku : Option String
deriving DecidableEq, Repr

/-- A script object as freshly parsed from `GET /api/v1/dashboard/scripts/{id}`.
The edit handler compares with strict equality (`script.has_mp3 === true`,
`script.can_edit === false`), so each flag is an `Option Bool`: `none`
models a missing (`undefined`) field, which strict equality treats as
neither `true` nor `false`. -/
structure ScriptJson where
  id : Nat
  title : String
  has_mp3 : Option Bool
  can_edit : Option Bool
deriving DecidableEq, Repr

/-- URL of `GET/PUT/DELETE /api/v1/dashboard/scripts/{id}`. -/
def scriptUrl (scriptId : Nat) : String :=
  "/api/v1/dashboard/scripts/" ++ toString scriptId

/-- URL of `GET /api/v1/dashboard/products`. -/
def productsUrl : String := "/api/v1/dashboard/products"

/-- URL of `GET /api/v1/dashboard/products/{id}/scripts`. -/
def productScriptsUrl (productId : Nat) : String :=
  "/api/v1/dashboard/products/" ++ toString productId ++ "/scripts"

/-- URL of `DELETE /api/v1/dashboard/scripts/{id}/mp3`. -/
def scriptMp3Url (scriptId : Nat) : String :=
  scriptUrl scriptId ++ "/mp3"

/-! ### `editScript` (dashboard.js lines 655-732) -/

/-- Observable result of one `editScript(scriptId)` invocation:
the HTTP requests it issued, the user-facing warning alerts, the error
alerts from the `catch` branch, and whether the edit modal was opened. -/
structure EditResult where
  requests : List Request
  warnings : List String
  errors : List String
  modalOpened : Bool
deriving DecidableEq, Repr

/-- `editScript(scriptId)` from dashboard.js.  The function always starts
with `fetch(scriptUrl)`; on `!response.ok` it throws (caught below as an
error alert); on success it checks `script.has_mp3 === true` and then
`script.can_edit === false`, refusing with a warning alert in either case,
and otherwise opens the edit modal.  The global `currentScripts` cache is
passed explicitly as `cache`; exactly as in the source, the function body
never reads it (editability is decided from the fresh fetch alone). -/
def editScript (cache : List Script) (scriptId : Nat)
    (resp : FetchOutcome ScriptJson) : EditResult :=
  let _ := cache
  match resp with
  | .networkError =>
      { requests := [.get (scriptUrl scriptId)], warnings := [],
        errors := ["cannot load script data"], modalOpened := false }
  | .httpError =>
      { requests := [.get (scriptUrl scriptId)], warnings := [],
        errors := ["cannot load script data"], modalOpened := false }
  | .ok script =>
      if script.has_mp3 = some true then
        { requests := [.get (scriptUrl scriptId)],
          warnings := ["cannot edit: script has an MP3 attached"],
          errors := [], modalOpened := false }
      else if script.can_edit = some false then
        { requests := [.get (scriptUrl scriptId)],
          warnings := ["script is locked and cannot be edited"],
          errors := [], modalOpened := false }
      else
        { requests := [.get (scriptUrl scriptId)], warnings := [],
          errors := [], modalOpened := true }

/-! ### `pollMP3Generation` (dashboard.js lines 1138-1162) -/

/-- Backend answer to one single-script status poll: `ready` is a
successful response whose script has a truthy `has_mp3`; `notReady` is a
successful response with falsy `has_mp3`; `httpError` is `!response.ok`
(the code then skips the check and retries); `fetchError` is a rejected
fetch, swallowed by the `catch` which also retries. -/
inductive PollResponse where
  | ready
  | notReady
  | httpError
  | fetchError
deriving DecidableEq, Repr

/-- Trace of a whole single-script polling run: how many status fetches
were issued, the `setTimeout` delays scheduled (in order, milliseconds),
whether the timeout notice was surfaced, and whether the success alert
(with its script-list reload) ran. -/
structure PollTrace where
  fetches : Nat
  delays : List Nat
  timedOut : Bool
  succeeded : Bool
deriving DecidableEq, Repr

/-- `pollMP3Generation(scriptId, attempts)` from dashboard.js, with
`maxAttempts = 30` and a 1000 ms retry delay.  `responses n` is the
backend's answer to the status fetch of the invocation with
`attempts = n`.  The source guards `attempts >= maxAttempts`; we recurse
on `remaining = maxAttempts - attempts`, so the `remaining = 0` branch is
exactly the `attempts >= maxAttempts` timeout branch. -/
def pollMP3Generation (responses : Nat → PollResponse) (attempts : Nat) :
    Nat → PollTrace
  | 0 => { fetches := 0, delays := [], timedOut := true, succeeded := false }
  | remaining + 1 =>
    match responses attempts with
    | .ready =>
        { fetches := 1, delays := [], timedOut := false, succeeded := true }
    | _ =>
        let rest := pollMP3Generation responses (attempts + 1) remaining
        { fetches := rest.fetches + 1, delays := 1000 :: rest.delays,
          timedOut := rest.timedOut, succeeded := rest.succeeded }

example :
    pollMP3Generation (fun _ => .notReady) 0 30 =
      { fetches := 30, delays := List.replicate 30 1000,
        timedOut := true, succeeded := false } := by decide

example :
    pollMP3Generation (fun n => if n = 2 then .ready else .fetchError) 0 30 =
      { fetches := 3, delays := [1000, 1000],
        timedOut := false, succeeded := true } := by decide

/-! ### `pollBulkMP3Generation` (dashboard.js lines 1463-1486) -/

/-- Backend behaviour of one bulk poll cycle.  In a `statuses` cycle every
per-id fetch and `res.json()` resolves, and `ready id` is the truthiness of
that id's `has_mp3`.  In a `cycleError` cycle some fetch or `res.json()`
rejects, so the `Promise.all` rejects and the cycle's `catch` swallows the
error and retries; note that `scriptIds.map(id => fetch(...))` has already
started every per-id request before `Promise.all` can reject. -/
inductive BulkCycleResponse where
  | statuses (ready : Nat → Bool)
  | cycleError

/-- One user-facing alert of the bulk polling loop: the partial-progress
notice (`⏳ Processing... completed/total`), the completion notice
(`🎉 ... count files created`, which also reloads scripts and stats), or
the attempt-cap timeout notice. -/
inductive BulkAlert where
  | progress (completed total : Nat)
  | complete (count : Nat)
  | timeout
deriving DecidableEq, Repr

/-- Trace of a whole bulk polling run: for each executed poll cycle the
list of script ids it fetched (in order), the alerts surfaced, the
`setTimeout` delays scheduled (milliseconds), and whether the final
script-list / stats reload ran. -/
structure BulkTrace where
  cycleFetches : List (List Nat)
  alerts : List BulkAlert
  delays : List Nat
  reloaded : Bool
deriving DecidableEq, Repr

/-- `pollBulkMP3Generation(scriptIds, attempts)` from dashboard.js, with
attempt cap 60 and a 2000 ms retry delay.  `responses n` describes the
backend during the cycle with `attempts = n`.  The source guards
`attempts >= 60`; we recurse on `remaining = 60 - attempts`, so the
`remaining = 0` branch is the timeout branch.  Each non-capped cycle
fetches every id of `scriptIds`; `completedCount` counts the ids whose
fetched script has truthy `has_mp3`; completion is
`completedCount === scriptIds.length`; the progress alert fires only when
`completedCount > 0`. -/
def pollBulkMP3Generation (scriptIds : List Nat)
    (responses : Nat → BulkCycleResponse) (attempts : Nat) : Nat → BulkTrace
  | 0 => { cycleFetches := [], alerts := [.timeout], delays := [],
           reloaded := false }
  | remaining + 1 =>
    match responses attempts with
    | .cycleError =>
        let rest := pollBulkMP3Generation scriptIds responses (attempts + 1) remaining
        { cycleFetches := scriptIds :: rest.cycleFetches,
          alerts := rest.alerts, delays := 2000 :: rest.delays,
          reloaded := rest.reloaded }
    | .statuses ready =>
        let completedCount := List.countP (fun id => ready id) scriptIds
        if completedCount = scriptIds.length then
          { cycleFetches := [scriptIds], alerts := [.complete completedCount],
            delays := [], reloaded := true }
        else
          let rest := pollBulkMP3Generation scriptIds responses (attempts + 1) remaining
          { cycleFetches := scriptIds :: rest.cycleFetches,
            alerts := (if 0 < completedCount then
                        [.progress completedCount scriptIds.length] else [])
                      ++ rest.alerts,
            delays := 2000 :: rest.delays, reloaded := rest.reloaded }

/-- Whether a bulk cycle response shows every id of the batch completed
(`completedCount === scriptIds.length`); an errored cycle never does. -/
def allDone (scriptIds : List Nat) : BulkCycleResponse → Bool
  | .statuses ready => List.countP (fun id => ready id) scriptIds == scriptIds.length
  | .cycleError => false

/-- The progress alert a non-final bulk poll cycle emits, recomputed from
the backend response alone: `some (progress c total)` when the cycle
parses statuses with completed count `c > 0`, `none` otherwise (used to
describe runs in which no cycle completes the whole batch). -/
def reportedProgress (scriptIds : List Nat) : BulkCycleResponse → Option BulkAlert
  | .statuses ready =>
      let c := List.countP (fun id => ready id) scriptIds
      if 0 < c then some (.progress c scriptIds.length) else none
  | .cycleError => none

/-- The `completedCount` values reported to the user across a run, in
order: the count of every progress alert and of the completion alert. -/
def reportedCounts (trace : BulkTrace) : List Nat :=
  trace.alerts.filterMap fun a =>
    match a with
    | .progress c _ => some c
    | .complete c => some c
    | .timeout => none

example :
    pollBulkMP3Generation [1, 2] (fun _ => .statuses (fun id => id = 1)) 0 2 =
      { cycleFetches := [[1, 2], [1, 2]],
        alerts := [.progress 1 2, .progress 1 2, .timeout],
        delays := [2000, 2000], reloaded := false } := by decide

example :
    pollBulkMP3Generation [1, 2] (fun n => if n = 0 then .cycleError
        else .statuses (fun _ => true)) 0 60 =
      { cycleFetches := [[1, 2], [1, 2]], alerts := [.complete 2],
        delays := [2000], reloaded := true } := by decide

/-! ### `deleteMP3` (dashboard.js lines 1310-1344) -/

/-- Kind of a user-facing alert banner. -/
inductive AlertKind where
  | success
  | info
  | warning
  | error
deriving DecidableEq, Repr

/-- Observable result of one `deleteMP3(scriptId)` invocation: requests
issued, alert kinds shown, the new `currentScripts` cache, and the delay
(milliseconds) of the forced `loadScripts` reload if one was scheduled. -/
structure DeleteMP3Result where
  requests : List Request
  alerts : List AlertKind
  currentScripts : List Script
  reloadDelayMs : Option Nat
deriving DecidableEq, Repr

/-- The optimistic cache update of `deleteMP3`: the source runs
`currentScripts.findIndex(s => s.id === scriptId)` and, when the index is
not `-1`, sets `has_mp3 = false` and `can_edit = true` on that (first
matching) entry in place.  Entries after the first match are untouched. -/
def unlockFirst (scriptId : Nat) : List Script → List Script
  | [] => []
  | s :: rest =>
      if s.id = scriptId then
        { s with has_mp3 := false, can_edit := true } :: rest
      else
        s :: unlockFirst scriptId rest

/-- `deleteMP3(scriptId)` from dashboard.js.  `confirmed` is the user's
answer to the leading `confirm(...)` dialog (`false` returns at once);
`resp` is the outcome of the `DELETE .../scripts/{id}/mp3` request.  On
success the cache entry for the script is unlocked immediately and a
forced `loadScripts()` reload is scheduled via `setTimeout(..., 500)`; a
non-ok response throws and, like a network error, lands in the `catch`,
which only shows an error alert. -/
def deleteMP3 (confirmed : Bool) (cache : List Script) (scriptId : Nat)
    (resp : FetchOutcome Unit) : DeleteMP3Result :=
  if confirmed = false then
    { requests := [], alerts := [], currentScripts := cache,
      reloadDelayMs := none }
  else
    match resp with
    | .ok _ =>
        { requests := [.delete (scriptMp3Url scriptId)],
          alerts := [.success],
          currentScripts := unlockFirst scriptId cache,
          reloadDelayMs := some 500 }
    | .httpError =>
        { requests := [.delete (scriptMp3Url scriptId)],
          alerts := [.error], currentScripts := cache,
          reloadDelayMs := none }
    | .networkError =>
        { requests := [.delete (scriptMp3Url scriptId)],
          alerts := [.error], currentScripts := cache,
          reloadDelayMs := none }

/-! ### `loadScripts` / `displayScripts` (dashboard.js lines 283-371, 374-458) -/

/-- Value of the `scripts-product-filter` select element: empty (no
product chosen), the literal string `"all"`, or a product id. -/
inductive ScriptsFilter where
  | noSelection
  | allProducts
  | product (id : Nat)
deriving DecidableEq, Repr

/-- Backend behaviour seen by `loadScripts`: the `products` field of
`GET /products` (behind its fetch outcome) and, for each product id, the
`scripts` field of `GET /products/{id}/scripts` (behind its fetch
outcome). -/
structure ScriptsBackend where
  products : FetchOutcome (JsField Product)
  scriptsFor : Nat → FetchOutcome (JsField Script)

/-- What `loadScripts` leaves in the `scripts-content` DOM region: the
initial "select a product" prompt, the `displayScripts` rendering of a
list of scripts (possibly empty), or the error panel built by the `catch`
branch (alert banner plus retry button). -/
inductive Rendered where
  | promptSelect
  | scriptList (scripts : List Script)
  | errorPanel
deriving DecidableEq, Repr

/-- Observable result of one `loadScripts()` invocation. -/
structure LoadScriptsResult where
  requests : List Request
  currentScripts : List Script
  rendered : Rendered
deriving DecidableEq, Repr

/-- The tagging the ALL-products loader applies to each fetched script:
`{...script, product_name: product.name, product_sku: product.sku}`. -/
def tagWithProduct (p : Product) (s : Script) : Script :=
  { s with product_name := some p.name, product_sku := some p.sku }

/-- The per-product branch of the ALL-products fan-out: on an ok response
the scripts array (`data.scripts || []`) is tagged with the product; a
truthy non-array `scripts` value makes `scripts.map` throw inside the
per-product `try`, whose `catch` returns `[]`; a non-ok response returns
`[]`; a rejected fetch is caught and returns `[]`. -/
def scriptsOfProduct (backend : ScriptsBackend) (p : Product) : List Script :=
  match backend.scriptsFor p.id with
  | .ok (.array ss) => ss.map (tagWithProduct p)
  | .ok .missing => []
  | .ok .nonArray => []
  | .httpError => []
  | .networkError => []

/-- `loadScripts()` from dashboard.js (with `displayScripts` folded into
the `rendered` field).  With no selection it only renders the prompt.  In
ALL mode it fetches `/products`; a non-ok or rejected response throws into
the `catch` (error panel, cache emptied); a truthy non-array `products`
value makes `products.map` throw with the same effect; otherwise it fans
out one scripts request per product and flattens the tagged results.  In
single-product mode it fetches that product's scripts; a truthy non-array
`scripts` value survives `data.scripts || []` but fails the
`Array.isArray` check, so the cache is reset to `[]` and an empty list is
rendered. -/
def loadScripts (filter : ScriptsFilter) (cache : List Script)
    (backend : ScriptsBackend) : LoadScriptsResult :=
  match filter with
  | .noSelection =>
      { requests := [], currentScripts := cache, rendered := .promptSelect }
  | .allProducts =>
      match backend.products with
      | .httpError =>
          { requests := [.get productsUrl], currentScripts := [],
            rendered := .errorPanel }
      | .networkError =>
          { requests := [.get productsUrl], currentScripts := [],
            rendered := .errorPanel }
      | .ok .nonArray =>
          { requests := [.get productsUrl], currentScripts := [],
            rendered := .errorPanel }
      | .ok .missing =>
          { requests := [.get productsUrl], currentScripts := [],
            rendered := .scriptList [] }
      | .ok (.array ps) =>
          let allScripts := (ps.map (scriptsOfProduct backend)).flatten
          { requests := .get productsUrl
              :: ps.map (fun p => .get (productScriptsUrl p.id)),
            currentScripts := allScripts,
            rendered := .scriptList allScripts }
  | .product pid =>
      match backend.scriptsFor pid with
      | .httpError =>
          { requests := [.get (productScriptsUrl pid)], currentScripts := [],
            rendered := .errorPanel }
      | .networkError =>
          { requests := [.get (productScriptsUrl pid)], currentScripts := [],
            rendered := .errorPanel }
      | .ok .nonArray =>
          { requests := [.get (productScriptsUrl pid)], currentScripts := [],
            rendered := .scriptList [] }
      | .ok .missing =>
          { requests := [.get (productScriptsUrl pid)], currentScripts := [],
            rendered := .scriptList [] }
      | .ok (.array ss) =>
          { requests := [.get (productScriptsUrl pid)], currentScripts := ss,
            rendered := .scriptList ss }

/-! ### Helper lemmas -/

/-- A single-script polling run whose backend never reports the MP3 ready
issues one status fetch and schedules one 1000 ms retry per remaining
attempt, then surfaces the timeout notice. -/
theorem pollMP3_never_ready (responses : Nat → PollResponse)
    (h : ∀ n, responses n ≠ .ready) :
    ∀ (remaining attempts : Nat),
      pollMP3Generation responses attempts remaining =
        { fetches := remaining, delays := List.replicate remaining 1000,
          timedOut := true, succeeded := false } := by
  intro remaining
  induction remaining with
  | zero => intro a; rfl
  | succ r ih =>
      intro a
      cases hresp : responses a with
      | ready => exact absurd hresp (h a)
      | notReady =>
          simp [pollMP3Generation, hresp, ih (a + 1), List.replicate_succ]
      | httpError =>
          simp [pollMP3Generation, hresp, ih (a + 1), List.replicate_succ]
      | fetchError =>
          simp [pollMP3Generation, hresp, ih (a + 1), List.replicate_succ]

/-- Replaces every rejected status fetch of a single-script polling
backend by a plain "not ready yet" answer. -/
def errAsNotReady (responses : Nat → PollResponse) : Nat → PollResponse :=
  fun n =>
    match responses n with
    | .fetchError => .notReady
    | r => r

/-- Replaces every errored bulk poll cycle by a cycle in which every
per-id status parses with `has_mp3` still falsy. -/
def cycleErrAsNoneReady (responses : Nat → BulkCycleResponse) :
    Nat → BulkCycleResponse :=
  fun n =>
    match responses n with
    | .cycleError => .statuses (fun _ => false)
    | r => r

/-- The single-script poll treats a rejected fetch exactly like a
"not ready" answer: the whole run trace is unchanged. -/
theorem pollMP3_fetchError_transient (responses : Nat → PollResponse) :
    ∀ (remaining attempts : Nat),
      pollMP3Generation (errAsNotReady responses) attempts remaining =
        pollMP3Generation responses attempts remaining := by
  intro remaining
  induction remaining with
  | zero => intro a; rfl
  | succ r ih =>
      intro a
      cases hresp : responses a <;>
        simp [pollMP3Generation, errAsNotReady, hresp, ih (a + 1)]

/-- The bulk poll treats an errored cycle exactly like a cycle in which no
script is ready yet, as long as the batch is nonempty: the whole run trace
is unchanged. -/
theorem pollBulk_cycleError_transient (scriptIds : List Nat)
    (responses : Nat → BulkCycleResponse) (hne : scriptIds ≠ []) :
    ∀ (remaining attempts : Nat),
      pollBulkMP3Generation scriptIds (cycleErrAsNoneReady responses) attempts remaining =
        pollBulkMP3Generation scriptIds responses attempts remaining := by
  have hlen : scriptIds.length ≠ 0 := by
    simpa [List.length_eq_zero] using hne
  intro remaining
  induction remaining with
  | zero => intro a; rfl
  | succ r ih =>
      intro a
      cases hresp : responses a with
      | statuses ready =>
          simp [pollBulkMP3Generation, cycleErrAsNoneReady, hresp, ih (a + 1)]
      | cycleError =>
          have hcount : List.countP (fun id => false) scriptIds = 0 := by
            simp
          have hne0 : ¬(0 = scriptIds.length) := fun h => hlen h.symm
          simp [pollBulkMP3Generation, cycleErrAsNoneReady, hresp, ih (a + 1),
            hcount, hne0]

example : pollBulkMP3Generation [1]
    (cycleErrAsNoneReady (fun _ => .cycleError)) 0 3 =
    pollBulkMP3Generation [1] (fun _ => .cycleError) 0 3 := by decide

/-! ### Concrete example values used in witnesses and counterexamples -/

/-- A cached script entry whose `has_mp3` flag is true (locked in cache). -/
def cachedLockedScript : Script := { id := 1, product_id := 1, title := "s", has_mp3 := true, can_edit := false, product_name := none, product_sku := none }

/-- A freshly fetched script JSON reporting the script unlocked. -/
def freshUnlockedJson : ScriptJson := { id := 1, title := "s", has_mp3 := some false, can_edit := some true }

/-- A freshly fetched script JSON reporting `has_mp3 === true`. -/
def freshLockedJson : ScriptJson := { id := 3, title := "t", has_mp3 := some true, can_edit := some false }

/-- A freshly fetched script JSON with `has_mp3 === true` but `can_edit` not `false`. -/
def freshMp3OnlyJson : ScriptJson := { id := 4, title := "t", has_mp3 := some true, can_edit := some true }

/-- A cached locked script entry with id 9. -/
def cachedLockedScript9 : Script := { id := 9, product_id := 1, title := "x", has_mp3 := true, can_edit := false, product_name := none, product_sku := none }

/-! ### Claim theorems -/

/-- C1 (counterexample): the claim says that for a script whose cached
`has_mp3` flag is true, triggering the edit action is refused without any
network call.  In the code, `editScript` never consults the cache: with a
cached entry for script 1 having `has_mp3 = true`, triggering the edit
action still issues the GET re-fetch, and — since the fresh fetch reports
the script unlocked — the edit form even opens. -/
theorem editScript_cached_mp3_still_fetches :
    (∃ s ∈ [cachedLockedScript], s.id = 1 ∧ s.has_mp3 = true) ∧
    (editScript [cachedLockedScript] 1 (.ok freshUnlockedJson)).requests ≠ [] ∧
    (editScript [cachedLockedScript] 1 (.ok freshUnlockedJson)).modalOpened = true := by
  decide

/-- C1 (amended): triggering the edit action always issues exactly one GET
re-fetch of the script — whatever the cached flags and whatever the
response; on a successful response the edit is refused (form closed, with
a user-facing warning) exactly when the freshly fetched data shows
`has_mp3 === true` or `can_edit === false`, and otherwise the edit form
opens with no warning. -/
theorem editScript_fresh_lock_refused (cache : List Script) (scriptId : Nat)
    (resp : FetchOutcome ScriptJson) :
    (editScript cache scriptId resp).requests =
        [.get (scriptUrl scriptId)] ∧
    (∀ script, resp = .ok script →
      ((script.has_mp3 = some true ∨ script.can_edit = some false →
        (editScript cache scriptId resp).modalOpened = false ∧
        (editScript cache scriptId resp).warnings ≠ []) ∧
      (¬(script.has_mp3 = some true ∨ script.can_edit = some false) →
        (editScript cache scriptId resp).modalOpened = true ∧
        (editScript cache scriptId resp).warnings = []))) := by
  constructor
  · cases resp with
    | ok script =>
        by_cases h1 : script.has_mp3 = some true <;>
          by_cases h2 : script.can_edit = some false <;>
            simp [editScript, h1, h2]
    | httpError => rfl
    | networkError => rfl
  · intro script heq
    subst heq
    constructor
    · intro h
      cases h with
      | inl h1 => simp [editScript, h1]
      | inr h2 =>
          by_cases h1 : script.has_mp3 = some true <;>
            simp [editScript, h1, h2]
    · intro h
      push_neg at h
      obtain ⟨h1, h2⟩ := h
      simp [editScript, h1, h2]

/-- Witness for the amended C1 theorem: the GET is issued at a concrete
input, a concrete locked fresh fetch is refused with a warning, and a
concrete unlocked fresh fetch opens the form with no warning. -/
theorem editScript_fresh_lock_refused_witness :
    (editScript [] 3 (.ok freshLockedJson)).requests = [.get (scriptUrl 3)] ∧
    ((editScript [] 3 (.ok freshLockedJson)).modalOpened = false ∧
      (editScript [] 3 (.ok freshLockedJson)).warnings ≠ []) ∧
    ((editScript [] 1 (.ok freshUnlockedJson)).modalOpened = true ∧
      (editScript [] 1 (.ok freshUnlockedJson)).warnings = []) :=
  ⟨(editScript_fresh_lock_refused [] 3 (.ok freshLockedJson)).1,
   ((editScript_fresh_lock_refused [] 3 (.ok freshLockedJson)).2
     freshLockedJson rfl).1 (Or.inl rfl),
   ((editScript_fresh_lock_refused [] 1 (.ok freshUnlockedJson)).2
     freshUnlockedJson rfl).2 (by decide)⟩

/-- C2: the edit operation's behaviour is independent of the cached copy,
it always re-fetches the script (its only request is the GET re-fetch, in
particular it never sends an update request), and whenever the freshly
fetched script shows `has_mp3 === true` or `can_edit === false` it leaves
the edit form closed and shows a warning. -/
theorem editScript_revalidates_fresh (cache cache' : List Script)
    (scriptId : Nat) (resp : FetchOutcome ScriptJson) :
    editScript cache scriptId resp = editScript cache' scriptId resp ∧
    (editScript cache scriptId resp).requests =
        [.get (scriptUrl scriptId)] ∧
    (∀ script, resp = .ok script →
      script.has_mp3 = some true ∨ script.can_edit = some false →
      (editScript cache scriptId resp).modalOpened = false ∧
      (editScript cache scriptId resp).warnings ≠ []) := by
  refine ⟨rfl, ?_, ?_⟩
  · cases resp with
    | ok script =>
        by_cases h1 : script.has_mp3 = some true <;>
          by_cases h2 : script.can_edit = some false <;>
            simp [editScript, h1, h2]
    | httpError => rfl
    | networkError => rfl
  · intro script heq h
    subst heq
    cases h with
    | inl h1 => simp [editScript, h1]
    | inr h2 =>
        by_cases h1 : script.has_mp3 = some true <;>
          simp [editScript, h1, h2]

/-- Witness for the C2 theorem at a concrete locked fresh fetch. -/
theorem editScript_revalidates_fresh_witness :
    (editScript [] 4 (.ok freshMp3OnlyJson)).modalOpened = false ∧
    (editScript [] 4 (.ok freshMp3OnlyJson)).warnings ≠ [] :=
  (editScript_revalidates_fresh [] [] 4 _).2.2 _ rfl (Or.inl rfl)

/-- C3: a single-script polling run whose backend never reports
`has_mp3 == true` performs exactly 30 status fetches, schedules every
retry 1000 ms apart, then stops with the timeout notice and issues no
further request. -/
theorem pollMP3Generation_timeout_cap (responses : Nat → PollResponse)
    (h : ∀ n, responses n ≠ .ready) :
    pollMP3Generation responses 0 30 =
      { fetches := 30, delays := List.replicate 30 1000,
        timedOut := true, succeeded := false } :=
  pollMP3_never_ready responses h 30 0

/-- Witness for the C3 theorem with a backend that always answers
"not ready". -/
theorem pollMP3Generation_timeout_cap_witness :
    (∀ n : Nat, (fun _ : Nat => PollResponse.notReady) n ≠ .ready) ∧
    pollMP3Generation (fun _ => PollResponse.notReady) 0 30 =
      { fetches := 30, delays := List.replicate 30 1000,
        timedOut := true, succeeded := false } :=
  ⟨fun _ h => PollResponse.noConfusion h,
   pollMP3Generation_timeout_cap _ (fun _ h => PollResponse.noConfusion h)⟩

/-- C5: fetch failures during polling are swallowed and the poll retries
on the same fixed schedule: a single-script run behaves identically when
every rejected fetch is replaced by a "not ready" answer, and a bulk run
(over a nonempty batch) behaves identically when every errored cycle is
replaced by a "none ready yet" cycle; hence an error can never terminate
a run — only success detection or the attempt cap can. -/
theorem polling_fetch_errors_transient (responses : Nat → PollResponse)
    (scriptIds : List Nat) (bulkResponses : Nat → BulkCycleResponse)
    (attempts remaining battempts bremaining : Nat)
    (hne : scriptIds ≠ []) :
    pollMP3Generation (errAsNotReady responses) attempts remaining =
      pollMP3Generation responses attempts remaining ∧
    pollBulkMP3Generation scriptIds (cycleErrAsNoneReady bulkResponses)
        battempts bremaining =
      pollBulkMP3Generation scriptIds bulkResponses battempts bremaining :=
  ⟨pollMP3_fetchError_transient responses remaining attempts,
   pollBulk_cycleError_transient scriptIds bulkResponses hne bremaining battempts⟩

/-- Witness for the C5 theorem with backends that always fail. -/
theorem polling_fetch_errors_transient_witness :
    ([7] : List Nat) ≠ [] ∧
    (pollMP3Generation (errAsNotReady (fun _ => .fetchError)) 0 30 =
        pollMP3Generation (fun _ => .fetchError) 0 30 ∧
      pollBulkMP3Generation [7] (cycleErrAsNoneReady (fun _ => .cycleError)) 0 60 =
        pollBulkMP3Generation [7] (fun _ => .cycleError) 0 60) :=
  ⟨by decide,
   polling_fetch_errors_transient (fun _ => .fetchError) [7]
     (fun _ => .cycleError) 0 30 0 60 (by decide)⟩

/-- The optimistic unlock of `deleteMP3` really unlocks a cache entry for
the script: if the cache holds an entry with the deleted script's id, the
updated cache holds an entry with that id, `has_mp3 = false` and
`can_edit = true`. -/
theorem unlockFirst_mem (scriptId : Nat) :
    ∀ (cache : List Script), (∃ s ∈ cache, s.id = scriptId) →
      ∃ t ∈ unlockFirst scriptId cache,
        t.id = scriptId ∧ t.has_mp3 = false ∧ t.can_edit = true := by
  intro cache
  induction cache with
  | nil => intro h; simp at h
  | cons s rest ih =>
      intro h
      by_cases hs : s.id = scriptId
      · refine ⟨{ s with has_mp3 := false, can_edit := true }, ?_, hs, rfl, rfl⟩
        simp [unlockFirst, hs]
      · obtain ⟨u, hu, hid⟩ := h
        rcases List.mem_cons.mp hu with hus | hurest
        · exact absurd (hus ▸ hid) hs
        · obtain ⟨t, ht, hprops⟩ := ih ⟨u, hurest, hid⟩
          refine ⟨t, ?_, hprops⟩
          simp [unlockFirst, hs]
          exact Or.inr ht

/-- C6: when the user confirms the dialog and the MP3-deletion request
succeeds, the cached entry for the script is immediately updated to
`has_mp3 = false` and `can_edit = true`, and a forced script-list reload
is scheduled 500 ms later. -/
theorem deleteMP3_optimistic_unlock (cache : List Script) (scriptId : Nat)
    (h : ∃ s ∈ cache, s.id = scriptId) :
    (∃ t ∈ (deleteMP3 true cache scriptId (.ok ())).currentScripts,
        t.id = scriptId ∧ t.has_mp3 = false ∧ t.can_edit = true) ∧
    (deleteMP3 true cache scriptId (.ok ())).reloadDelayMs = some 500 := by
  constructor
  · simpa [deleteMP3] using unlockFirst_mem scriptId cache h
  · simp [deleteMP3]

/-- Witness for the C6 theorem on a one-entry locked cache. -/
theorem deleteMP3_optimistic_unlock_witness :
    (∃ s ∈ [cachedLockedScript9], s.id = 9) ∧
    ((∃ t ∈ (deleteMP3 true [cachedLockedScript9] 9 (.ok ())).currentScripts,
        t.id = 9 ∧ t.has_mp3 = false ∧ t.can_edit = true) ∧
      (deleteMP3 true [cachedLockedScript9] 9 (.ok ())).reloadDelayMs = some 500) :=
  ⟨by decide, deleteMP3_optimistic_unlock _ 9 (by decide)⟩

/-- C7: when "ALL Products" is selected and every fetch succeeds with an
array payload, the loader issues exactly one `GET /products` followed by
one `GET /products/{id}/scripts` per returned product, the merged cache is
the flattening of the per-product script lists (each tagged with its
parent product), its length is the sum of the per-product script counts,
and every merged script carries some parent product's name and SKU. -/
theorem loadScripts_all_products_fanout (cache : List Script)
    (backend : ScriptsBackend) (ps : List Product)
    (ssOf : Product → List Script)
    (hp : backend.products = .ok (.array ps))
    (hs : ∀ p ∈ ps, backend.scriptsFor p.id = .ok (.array (ssOf p))) :
    (loadScripts .allProducts cache backend).requests =
        .get productsUrl :: ps.map (fun p => .get (productScriptsUrl p.id)) ∧
    (loadScripts .allProducts cache backend).currentScripts =
        (ps.map (fun p => (ssOf p).map (tagWithProduct p))).flatten ∧
    (loadScripts .allProducts cache backend).currentScripts.length =
        (ps.map (fun p => (ssOf p).length)).sum ∧
    ∀ s ∈ (loadScripts .allProducts cache backend).currentScripts,
      ∃ p ∈ ps, s.product_name = some p.name ∧ s.product_sku = some p.sku := by
  have hmap : ps.map (scriptsOfProduct backend) =
      ps.map (fun p => (ssOf p).map (tagWithProduct p)) :=
    List.map_congr_left (fun p hp' => by simp [scriptsOfProduct, hs p hp'])
  have hcur : (loadScripts .allProducts cache backend).currentScripts =
      (ps.map (fun p => (ssOf p).map (tagWithProduct p))).flatten := by
    simp [loadScripts, hp, hmap]
  refine ⟨by simp [loadScripts, hp], hcur, ?_, ?_⟩
  · rw [hcur, List.length_flatten, List.map_map]
    congr 1
    apply List.map_congr_left
    intro p _
    simp [Function.comp]
  · intro s hsmem
    rw [hcur, List.mem_flatten] at hsmem
    obtain ⟨l, hl, hsl⟩ := hsmem
    rw [List.mem_map] at hl
    obtain ⟨p, hpmem, rfl⟩ := hl
    rw [List.mem_map] at hsl
    obtain ⟨s0, _, rfl⟩ := hsl
    exact ⟨p, hpmem, by simp [tagWithProduct], by simp [tagWithProduct]⟩

/-- A product used in the fan-out witness. -/
def prodA : Product := { id := 1, name := "A", sku := "SA" }

/-- A second product used in the fan-out witness. -/
def prodB : Product := { id := 2, name := "B", sku := "SB" }

/-- A draft script returned for product 1 in the fan-out witness. -/
def scrW : Script := { id := 11, product_id := 1, title := "w", has_mp3 := false, can_edit := true, product_name := none, product_sku := none }

/-- A backend serving two products, one script under product 1. -/
def fanoutBackend : ScriptsBackend := { products := .ok (.array [prodA, prodB]), scriptsFor := fun pid => .ok (.array (if pid = 1 then [scrW] else [])) }

/-- The per-product script lists served by `fanoutBackend`. -/
def ssOfFanout : Product → List Script := fun p => if p.id = 1 then [scrW] else []

/-- Witness for the C7 theorem on a concrete two-product backend. -/
theorem loadScripts_all_products_fanout_witness :
    fanoutBackend.products = .ok (.array [prodA, prodB]) ∧
    (∀ p ∈ [prodA, prodB],
      fanoutBackend.scriptsFor p.id = .ok (.array (ssOfFanout p))) ∧
    (loadScripts .allProducts [] fanoutBackend).currentScripts.length =
      ([prodA, prodB].map (fun p => (ssOfFanout p).length)).sum :=
  ⟨rfl, by decide,
   (loadScripts_all_products_fanout [] fanoutBackend [prodA, prodB] ssOfFanout
     rfl (by decide)).2.2.1⟩

/-- A backend whose `products` field is a truthy non-array value. -/
def badProductsBackend : ScriptsBackend := { products := .ok .nonArray, scriptsFor := fun _ => .ok (.array []) }

/-- C8 (counterexample): the claim says a non-array `products` payload
degrades to an empty rendered list.  In the code, a truthy non-array
`products` value makes `products.map` throw; the `catch` branch empties
the cache but renders the error panel, not an empty script list. -/
theorem loadScripts_nonarray_products_counterexample :
    (loadScripts .allProducts [] badProductsBackend).currentScripts = [] ∧
    (loadScripts .allProducts [] badProductsBackend).rendered = .errorPanel ∧
    ∀ ss, (loadScripts .allProducts [] badProductsBackend).rendered ≠ .scriptList ss := by
  refine ⟨by decide, by decide, ?_⟩
  intro ss
  simp [loadScripts, badProductsBackend]

/-- C8 (amended): a non-array `scripts` payload degrades to an empty cache
and an empty rendered list, both in single-product mode and (per product)
in ALL mode; a non-array `products` payload in ALL mode also empties the
cache but is surfaced through the loader's error panel — rendering never
crashes. -/
theorem loadScripts_nonarray_degrades (cache : List Script)
    (backend : ScriptsBackend) (pid : Nat) (ps : List Product) :
    (backend.scriptsFor pid = .ok .nonArray →
      (loadScripts (.product pid) cache backend).currentScripts = [] ∧
      (loadScripts (.product pid) cache backend).rendered = .scriptList []) ∧
    (backend.products = .ok (.array ps) →
      (∀ p ∈ ps, backend.scriptsFor p.id = .ok .nonArray) →
      (loadScripts .allProducts cache backend).currentScripts = [] ∧
      (loadScripts .allProducts cache backend).rendered = .scriptList []) ∧
    (backend.products = .ok .nonArray →
      (loadScripts .allProducts cache backend).currentScripts = [] ∧
      (loadScripts .allProducts cache backend).rendered = .errorPanel) := by
  refine ⟨?_, ?_, ?_⟩
  · intro h
    exact ⟨by simp [loadScripts, h], by simp [loadScripts, h]⟩
  · intro hp hs
    have hflat : (ps.map (scriptsOfProduct backend)).flatten = [] := by
      rw [List.flatten_eq_nil_iff]
      intro l hl
      rw [List.mem_map] at hl
      obtain ⟨p, hpmem, rfl⟩ := hl
      simp [scriptsOfProduct, hs p hpmem]
    exact ⟨by simp [loadScripts, hp, hflat], by simp [loadScripts, hp, hflat]⟩
  · intro h
    exact ⟨by simp [loadScripts, h], by simp [loadScripts, h]⟩

/-- A backend serving one product whose `scripts` field is a truthy
non-array value. -/
def nonArrayScriptsBackend : ScriptsBackend := { products := .ok (.array [prodA]), scriptsFor := fun _ => .ok .nonArray }

/-- Witness for the amended C8 theorem on a concrete malformed backend. -/
theorem loadScripts_nonarray_degrades_witness :
    (nonArrayScriptsBackend.scriptsFor 1 = .ok .nonArray ∧
      (loadScripts (.product 1) [] nonArrayScriptsBackend).rendered = .scriptList []) ∧
    (loadScripts .allProducts [] nonArrayScriptsBackend).currentScripts = [] :=
  ⟨⟨rfl, ((loadScripts_nonarray_degrades [] nonArrayScriptsBackend 1 [prodA]).1 rfl).2⟩,
   ((loadScripts_nonarray_degrades [] nonArrayScriptsBackend 1 [prodA]).2.1 rfl (by decide)).1⟩

/-- Splitting off the first index of a shifted `filterMap` over a range. -/
theorem filterMap_range_shift {α : Type} (f : Nat → Option α) (a r : Nat) :
    (List.range (r + 1)).filterMap (fun k => f (a + k)) =
      (f a).toList ++ (List.range r).filterMap (fun k => f (a + 1 + k)) := by
  have hcongr : List.filterMap ((fun k => f (a + k)) ∘ Nat.succ) (List.range r) =
      List.filterMap (fun k => f (a + 1 + k)) (List.range r) :=
    List.filterMap_congr fun k _ => by
      show f (a + (k + 1)) = f (a + 1 + k)
      congr 1
      omega
  cases h : f a with
  | none =>
      rw [List.range_succ_eq_map, List.filterMap_cons_none, List.filterMap_map,
        hcongr]
      · rfl
      · simpa using h
  | some b =>
      rw [List.range_succ_eq_map,
        List.filterMap_cons_some (by simpa using h),
        List.filterMap_map, hcongr]
      simp [h]

/-- `reportedProgress` on an errored cycle. -/
theorem reportedProgress_cycleError (scriptIds : List Nat) :
    reportedProgress scriptIds .cycleError = none := rfl

/-- `reportedProgress` on a parsed cycle. -/
theorem reportedProgress_statuses (scriptIds : List Nat) (ready : Nat → Bool) :
    reportedProgress scriptIds (.statuses ready) =
      (if 0 < List.countP (fun id => ready id) scriptIds then
        some (.progress (List.countP (fun id => ready id) scriptIds)
          scriptIds.length) else none) := rfl

/-- A bulk polling run whose backend never reports the whole batch done
executes one poll cycle per remaining attempt, fetching every id of the
batch each cycle, emits exactly the positive partial-progress alerts
followed by the timeout notice, schedules every retry 2000 ms apart, and
never reloads. -/
theorem pollBulk_never_done (scriptIds : List Nat)
    (responses : Nat → BulkCycleResponse)
    (h : ∀ n, allDone scriptIds (responses n) = false) :
    ∀ (remaining attempts : Nat),
      pollBulkMP3Generation scriptIds responses attempts remaining =
        { cycleFetches := List.replicate remaining scriptIds,
          alerts := (List.range remaining).filterMap
              (fun k => reportedProgress scriptIds (responses (attempts + k)))
            ++ [.timeout],
          delays := List.replicate remaining 2000,
          reloaded := false } := by
  intro remaining
  induction remaining with
  | zero => intro a; rfl
  | succ r ih =>
      intro a
      have hshift := filterMap_range_shift
        (fun n => reportedProgress scriptIds (responses n)) a r
      cases hresp : responses a with
      | cycleError =>
          simp [pollBulkMP3Generation, hresp, ih (a + 1), List.replicate_succ,
            hshift, reportedProgress_cycleError]
      | statuses ready =>
          have hne : ¬(List.countP (fun id => ready id) scriptIds =
              scriptIds.length) := by
            have := h a
            simpa [allDone, hresp] using this
          by_cases hpos : 0 < List.countP (fun id => ready id) scriptIds
          · simp [pollBulkMP3Generation, hresp, hne, ih (a + 1),
              List.replicate_succ, hshift, reportedProgress_statuses, hpos]
          · simp [pollBulkMP3Generation, hresp, hne, ih (a + 1),
              List.replicate_succ, hshift, reportedProgress_statuses, hpos]

/-- C4: over a fixed id set, every bulk poll cycle fetches the status of
every id in the set; if no cycle ever shows the whole batch complete, the
run executes exactly 60 cycles at 2000 ms intervals, reports each positive
partial `completedCount / total` along the way, and then surfaces the
timeout notice; and any cycle that does show the whole batch complete
stops the run at once with the completion alert and the reload. -/
theorem pollBulkMP3Generation_cycles (scriptIds : List Nat)
    (responses : Nat → BulkCycleResponse) :
    ((∀ n, allDone scriptIds (responses n) = false) →
      pollBulkMP3Generation scriptIds responses 0 60 =
        { cycleFetches := List.replicate 60 scriptIds,
          alerts := (List.range 60).filterMap
              (fun n => reportedProgress scriptIds (responses n))
            ++ [.timeout],
          delays := List.replicate 60 2000,
          reloaded := false }) ∧
    (∀ attempts remaining ready, responses attempts = .statuses ready →
      List.countP (fun id => ready id) scriptIds = scriptIds.length →
      pollBulkMP3Generation scriptIds responses attempts (remaining + 1) =
        { cycleFetches := [scriptIds],
          alerts := [.complete scriptIds.length],
          delays := [], reloaded := true }) := by
  constructor
  · intro h
    have := pollBulk_never_done scriptIds responses h 60 0
    simpa using this
  · intro a r ready hresp hcount
    simp [pollBulkMP3Generation, hresp, hcount]

/-- A bulk polling backend for which only id 1 is ever ready. -/
def oneReadyResp : Nat → BulkCycleResponse := fun _ => .statuses (fun id => id == 1)

/-- Witness for the C4 theorem: a two-id batch in which exactly one id is
ever ready, so the run times out after 60 full cycles. -/
theorem pollBulkMP3Generation_cycles_witness :
    (∀ n, allDone [1, 2] (oneReadyResp n) = false) ∧
    pollBulkMP3Generation [1, 2] oneReadyResp 0 60 =
      { cycleFetches := List.replicate 60 [1, 2],
        alerts := (List.range 60).filterMap
            (fun n => reportedProgress [1, 2] (oneReadyResp n))
          ++ [.timeout],
        delays := List.replicate 60 2000,
        reloaded := false } :=
  ⟨fun _ => rfl,
   (pollBulkMP3Generation_cycles [1, 2] oneReadyResp).1 (fun _ => rfl)⟩

/-- A bulk polling backend whose reported per-id readiness regresses:
in cycle 0 ids 1 and 2 are ready, from cycle 1 on only id 1 is. -/
def regressResp : Nat → BulkCycleResponse := fun n =>
  if n = 0 then .statuses (fun id => decide (id ≤ 2))
  else .statuses (fun id => id == 1)

/-- C9 (counterexample): the claim says the reported `completedCount` is
monotonically non-decreasing across polls of a fixed id set.  The code
recomputes `completedCount` from each cycle's fresh responses with no
monotonicity enforcement: against a backend whose readiness regresses
(2 of 3 ready in cycle 0, then 1 of 3), the run reports 2 and then 1. -/
theorem pollBulk_completedCount_not_monotone :
    ¬ (reportedCounts (pollBulkMP3Generation [1, 2, 3] regressResp 0 60)).Pairwise (· ≤ ·) := by
  decide

/-- Readiness observations that never regress step by step never regress
between any two cycles. -/
theorem ready_mono_of_step (f : Nat → Nat → Bool)
    (hmono : ∀ n id, f n id = true → f (n + 1) id = true) :
    ∀ n m, n ≤ m → ∀ id, f n id = true → f m id = true := by
  intro n m hnm
  induction hnm with
  | refl => exact fun _ h => h
  | step _ ih => exact fun id hid => hmono _ id (ih id hid)

/-- Under step-monotone readiness, the per-cycle completed count is
monotone in the cycle index. -/
theorem countP_ready_mono (scriptIds : List Nat) (f : Nat → Nat → Bool)
    (hmono : ∀ n id, f n id = true → f (n + 1) id = true)
    (n m : Nat) (hnm : n ≤ m) :
    List.countP (fun id => f n id) scriptIds ≤
      List.countP (fun id => f m id) scriptIds :=
  List.countP_mono_left fun id _ h => ready_mono_of_step f hmono n m hnm id h

/-- A run out of attempts reports no count (only the timeout notice). -/
theorem reportedCounts_cap (scriptIds : List Nat)
    (responses : Nat → BulkCycleResponse) (attempts : Nat) :
    reportedCounts (pollBulkMP3Generation scriptIds responses attempts 0) = [] :=
  rfl

/-- The counts reported from a completing cycle on. -/
theorem reportedCounts_done (scriptIds : List Nat)
    (responses : Nat → BulkCycleResponse) (attempts remaining : Nat)
    (ready : Nat → Bool) (hresp : responses attempts = .statuses ready)
    (hdone : List.countP (fun id => ready id) scriptIds = scriptIds.length) :
    reportedCounts (pollBulkMP3Generation scriptIds responses attempts (remaining + 1)) =
      [List.countP (fun id => ready id) scriptIds] := by
  rw [pollBulkMP3Generation]
  simp [hresp, hdone, reportedCounts]

/-- The counts reported from a non-completing cycle on. -/
theorem reportedCounts_step (scriptIds : List Nat)
    (responses : Nat → BulkCycleResponse) (attempts remaining : Nat)
    (ready : Nat → Bool) (hresp : responses attempts = .statuses ready)
    (hdone : ¬(List.countP (fun id => ready id) scriptIds = scriptIds.length)) :
    reportedCounts (pollBulkMP3Generation scriptIds responses attempts (remaining + 1)) =
      (if 0 < List.countP (fun id => ready id) scriptIds then
        [List.countP (fun id => ready id) scriptIds] else []) ++
      reportedCounts (pollBulkMP3Generation scriptIds responses (attempts + 1) remaining) := by
  rw [pollBulkMP3Generation]
  by_cases hpos : 0 < List.countP (fun id => ready id) scriptIds <;>
    simp [hresp, hdone, hpos, reportedCounts]

/-- Every count reported by a bulk run started at cycle `attempts` is at
least the completed count of cycle `attempts`, provided every cycle
parses and readiness never regresses. -/
theorem reportedCounts_lower_bound (scriptIds : List Nat)
    (responses : Nat → BulkCycleResponse) (f : Nat → Nat → Bool)
    (hresp : ∀ n, responses n = .statuses (f n))
    (hmono : ∀ n id, f n id = true → f (n + 1) id = true) :
    ∀ (remaining attempts : Nat),
      ∀ x ∈ reportedCounts (pollBulkMP3Generation scriptIds responses attempts remaining),
        List.countP (fun id => f attempts id) scriptIds ≤ x := by
  intro remaining
  induction remaining with
  | zero =>
      intro a x hx
      rw [reportedCounts_cap] at hx
      simp at hx
  | succ r ih =>
      intro a x hx
      have hstep : List.countP (fun id => f a id) scriptIds ≤
          List.countP (fun id => f (a + 1) id) scriptIds :=
        countP_ready_mono scriptIds f hmono a (a + 1) (Nat.le_succ a)
      by_cases hdone : List.countP (fun id => f a id) scriptIds = scriptIds.length
      · rw [reportedCounts_done scriptIds responses a r (f a) (hresp a) hdone] at hx
        simp at hx
        omega
      · rw [reportedCounts_step scriptIds responses a r (f a) (hresp a) hdone] at hx
        rw [List.mem_append] at hx
        rcases hx with hx | hx
        · by_cases hpos : 0 < List.countP (fun id => f a id) scriptIds
          · rw [if_pos hpos] at hx
            simp at hx
            omega
          · rw [if_neg hpos] at hx
            simp at hx
        · exact le_trans hstep (ih (a + 1) x hx)

/-- Under step-monotone readiness, the counts reported by a bulk run are
pairwise non-decreasing. -/
theorem reportedCounts_pairwise (scriptIds : List Nat)
    (responses : Nat → BulkCycleResponse) (f : Nat → Nat → Bool)
    (hresp : ∀ n, responses n = .statuses (f n))
    (hmono : ∀ n id, f n id = true → f (n + 1) id = true) :
    ∀ (remaining attempts : Nat),
      (reportedCounts (pollBulkMP3Generation scriptIds responses attempts remaining)).Pairwise (· ≤ ·) := by
  intro remaining
  induction remaining with
  | zero =>
      intro a
      rw [reportedCounts_cap]
      exact List.Pairwise.nil
  | succ r ih =>
      intro a
      have hstep : List.countP (fun id => f a id) scriptIds ≤
          List.countP (fun id => f (a + 1) id) scriptIds :=
        countP_ready_mono scriptIds f hmono a (a + 1) (Nat.le_succ a)
      by_cases hdone : List.countP (fun id => f a id) scriptIds = scriptIds.length
      · rw [reportedCounts_done scriptIds responses a r (f a) (hresp a) hdone]
        simp
      · rw [reportedCounts_step scriptIds responses a r (f a) (hresp a) hdone]
        by_cases hpos : 0 < List.countP (fun id => f a id) scriptIds
        · rw [if_pos hpos]
          rw [List.singleton_append, List.pairwise_cons]
          constructor
          · intro x hx
            exact le_trans hstep
              (reportedCounts_lower_bound scriptIds responses f hresp hmono r (a + 1) x hx)
          · exact ih (a + 1)
        · rw [if_neg hpos, List.nil_append]
          exact ih (a + 1)

/-- C9 (amended): if every poll cycle parses its statuses and the observed
per-id readiness never regresses from one cycle to the next (once a cycle
reports `has_mp3` true for an id, every later cycle does too), then the
`completedCount` values reported across the run are monotonically
non-decreasing. -/
theorem pollBulk_completedCount_monotone_of_stable (scriptIds : List Nat)
    (responses : Nat → BulkCycleResponse) (f : Nat → Nat → Bool)
    (hresp : ∀ n, responses n = .statuses (f n))
    (hmono : ∀ n id, f n id = true → f (n + 1) id = true) :
    (reportedCounts (pollBulkMP3Generation scriptIds responses 0 60)).Pairwise (· ≤ ·) :=
  reportedCounts_pairwise scriptIds responses f hresp hmono 60 0

/-- The readiness observations behind `oneReadyResp`: id 1 is always
ready, which is trivially non-regressing. -/
def oneReadyF : Nat → Nat → Bool := fun _ id => id == 1

/-- Witness for the amended C9 theorem on a stable backend. -/
theorem pollBulk_completedCount_monotone_of_stable_witness :
    (∀ n, oneReadyResp n = .statuses (oneReadyF n)) ∧
    (∀ n id, oneReadyF n id = true → oneReadyF (n + 1) id = true) ∧
    (reportedCounts (pollBulkMP3Generation [1, 2] oneReadyResp 0 60)).Pairwise (· ≤ ·) :=
  ⟨fun _ => rfl, fun _ _ h => h,
   pollBulk_completedCount_monotone_of_stable [1, 2] oneReadyResp oneReadyF
     (fun _ => rfl) (fun _ _ h => h)⟩

/-- C10: invoking the bulk poll with an empty id list immediately takes
the completion branch (`0 === [].length`): it issues no per-script status
fetch, reports completion with count 0 ("0 files created"), reloads the
script list and stats, schedules no retry and consumes no further poll
attempt. -/
theorem pollBulk_empty_ids_immediate (responses : Nat → BulkCycleResponse)
    (ready : Nat → Bool) (h : responses 0 = .statuses ready) :
    pollBulkMP3Generation [] responses 0 60 =
      { cycleFetches := [[]], alerts := [.complete 0], delays := [],
        reloaded := true } := by
  have h60 : (60 : Nat) = 59 + 1 := rfl
  rw [h60, pollBulkMP3Generation]
  simp [h]

/-- Witness for the C10 theorem on a concrete backend. -/
theorem pollBulk_empty_ids_immediate_witness :
    oneReadyResp 0 = .statuses (oneReadyF 0) ∧
    pollBulkMP3Generation [] oneReadyResp 0 60 =
      { cycleFetches := [[]], alerts := [.complete 0], delays := [],
        reloaded := true } :=
  ⟨rfl, pollBulk_empty_ids_immediate oneReadyResp (oneReadyF 0) rfl⟩
